import Mathlib

/-!
Shallow embedding of the authentication and account-lockout core of the
NestJS/Drizzle user-management backend (src/src/auth/auth.service.ts,
src/src/users/users.service.ts, src/src/database/schema.ts and the DTO layer).

Modelling conventions:
- Timestamps (`Date` values) are `Nat` milliseconds since the epoch; nullable
  timestamp columns are `Option Nat`.  Every service call receives the current
  time `now : Nat` explicitly; the several `new Date()` calls inside one
  service method are modelled as the same instant.
- The `users` table is a `List User`; a Drizzle
  `db.select().from(users).where(eq(col, x))` that is destructured as
  `const [user] = ...` is `List.find?`, and an `UPDATE ... WHERE col = x`
  is a `List.map` that rewrites every matching row.
- bcrypt is external: password verification is a parameter
  `verify : String → String → Bool` (bcrypt.compare) and hashing a parameter
  `hashPw : String → String` (bcrypt.hash).
- JS `String.prototype.toLowerCase` is `asciiLower` (char-wise lowering;
  definitional so it reduces in the kernel, unlike `String.toLower`).
- Thrown `HttpException`s are the error side of `Except`; a method that both
  mutates the store and can throw returns `List User × Except HttpError α`.
- A refresh-token input from the wire is `Option SignedToken`: `none` is a
  string that does not parse as a JWT at all (malformed), `some t` is a
  structurally valid token whose signature is modelled by the secret it was
  signed with and whose `exp` is an absolute timestamp.
-/

def asciiLower (s : String) : String := String.mk (s.data.map Char.toLower)

/-- `app.config.ts`: the JWT/bcrypt configuration surface consumed by
`AuthService`.  TTLs are modelled as millisecond durations. -/
structure AppConfig where
  jwtSecret : String
  jwtRefreshSecret : String
  jwtExpiresIn : Nat
  jwtRefreshExpiresIn : Nat
  bcryptRounds : Nat
deriving Repr, DecidableEq

/-- One row of the `users` table (src/src/database/schema.ts). -/
structure User where
  id : String
  email : String
  username : String
  firstName : String
  lastName : String
  password : String
  role : String
  profilePicture : Option String
  isActive : Bool
  isEmailVerified : Bool
  emailVerificationToken : Option String
  passwordResetToken : Option String
  passwordResetExpires : Option Nat
  lastLoginAt : Option Nat
  loginAttempts : Option Nat
  lockUntil : Option Nat
  twoFactorSecret : Option String
  isTwoFactorEnabled : Bool
  createdAt : Nat
  updatedAt : Nat
deriving Repr, DecidableEq

/-- `UserResponseDto` after `plainToClass(..., { excludeExtraneousValues: true })`:
only the `@Expose()` fields survive.  The class also declares
`passwordResetToken` / `passwordResetExpires`, but they are `@Exclude()`d, so
on every instance produced by `transformToResponseDto` they are `undefined`
(modelled as `none`). -/
structure UserResponseDto where
  id : String
  email : String
  username : String
  firstName : String
  lastName : String
  fullName : String
  role : String
  profilePicture : Option String
  isActive : Bool
  isEmailVerified : Bool
  isTwoFactorEnabled : Bool
  lastLoginAt : Option Nat
  createdAt : Nat
  updatedAt : Nat
  passwordResetToken : Option String
  passwordResetExpires : Option Nat
deriving Repr, DecidableEq

/-- `UsersService.transformToResponseDto`: `@Expose()` fields are copied,
`fullName` is recomputed by its `@Transform`, and the `@Exclude()`d reset
fields come out `undefined`. -/
def transformToResponseDto (u : User) : UserResponseDto :=
  { id := u.id
    email := u.email
    username := u.username
    firstName := u.firstName
    lastName := u.lastName
    fullName := u.firstName ++ " " ++ u.lastName
    role := u.role
    profilePicture := u.profilePicture
    isActive := u.isActive
    isEmailVerified := u.isEmailVerified
    isTwoFactorEnabled := u.isTwoFactorEnabled
    lastLoginAt := u.lastLoginAt
    createdAt := u.createdAt
    updatedAt := u.updatedAt
    passwordResetToken := none
    passwordResetExpires := none }

/-- The `HttpException`s thrown by the two services. -/
inductive HttpError where
  | unauthorized (message : String)
  | badRequest (message : String)
  | conflict (message : String)
  | notFound (message : String)
deriving Repr, DecidableEq

def HttpError.isConflict : HttpError → Bool
  | .conflict _ => true
  | _ => false

/-- `SELECT ... WHERE email = e` destructured as `const [user] = ...`. -/
def lookupEmail (s : List User) (e : String) : Option User :=
  s.find? (fun u => u.email == e)

/-- `SELECT ... WHERE id = i` destructured as `const [user] = ...`. -/
def lookupId (s : List User) (i : String) : Option User :=
  s.find? (fun u => u.id == i)

def maxLoginAttempts : Nat := 5

def lockTime : Nat := 2 * 60 * 60 * 1000

/-- `UsersService.updateLoginAttempts(email, reset)` (users.service.ts
276-314).  `reset = true` zeroes the counter, clears the lock and stamps
`lastLoginAt`; `reset = false` re-reads the row, increments the counter and
sets `lockUntil = now + 2h` once the new value reaches the threshold, and is
a no-op when no row has exactly that email. -/
def updateLoginAttempts (s : List User) (now : Nat) (email : String)
    (reset : Bool) : List User :=
  if reset then
    s.map (fun u =>
      if u.email == email then
        { u with loginAttempts := some 0, lockUntil := none,
                 lastLoginAt := some now, updatedAt := now }
      else u)
  else
    match lookupEmail s email with
    | none => s
    | some user =>
      let attempts := user.loginAttempts.getD 0 + 1
      let lockVal : Option Nat :=
        if attempts ≥ maxLoginAttempts then some (now + lockTime) else none
      s.map (fun u =>
        if u.email == email then
          { u with loginAttempts := some attempts, lockUntil := lockVal,
                   updatedAt := now }
        else u)

/-- `UsersService.isAccountLocked(email)` (users.service.ts 316-331).
Returns the boolean and the (possibly reset) store, since an expired lock
triggers `updateLoginAttempts(email, true)`. -/
def isAccountLocked (s : List User) (now : Nat) (email : String) :
    Bool × List User :=
  match lookupEmail s email with
  | none => (false, s)
  | some user =>
    match user.lockUntil with
    | none => (false, s)
    | some t =>
      if now < t then (true, s)
      else (false, updateLoginAttempts s now email true)

/-- `CreateUserDto` as it reaches `UsersService.create` (after the global
validation pipe; its `@Transform`s have already lowercased `email` and
`username` on the HTTP path, but the service does not assume that). -/
structure CreateUserDto where
  email : String
  username : String
  firstName : String
  lastName : String
  password : String
  role : Option String := none
  profilePicture : Option String := none
deriving Repr, DecidableEq

/-- `UpdateUserDto` restricted to the fields the modelled call sites use.
`Option (Option _)` distinguishes an absent property (`none`) from an
explicit `null` (`some none`), as in `passwordResetToken?: string | null`. -/
structure UpdateUserDto where
  email : Option String := none
  username : Option String := none
  password : Option String := none
  isActive : Option Bool := none
  passwordResetToken : Option (Option String) := none
  passwordResetExpires : Option (Option Nat) := none
deriving Repr, DecidableEq

/-- The object spread `{ ...updateUserDto, updatedAt: new Date() }` applied to
one row by `UPDATE ... SET`. -/
def applyUpdateDto (u : User) (dto : UpdateUserDto) (now : Nat) : User :=
  { u with
    email := dto.email.getD u.email
    username := dto.username.getD u.username
    password := dto.password.getD u.password
    isActive := dto.isActive.getD u.isActive
    passwordResetToken := dto.passwordResetToken.getD u.passwordResetToken
    passwordResetExpires := dto.passwordResetExpires.getD u.passwordResetExpires
    updatedAt := now }

/-- Postgres errors surfaced to the service layer; `uniqueViolation` is
SQLSTATE 23505, raised by the unique indexes on `email` and `username`. -/
inductive DbError where
  | uniqueViolation
deriving Repr, DecidableEq

/-- `db.insert(users).values({...dto, password: hashed}).returning()`:
the new row takes the schema defaults, and the insert raises 23505 when an
existing row already holds the same email or username. -/
def dbInsertUser (s : List User) (newId : String) (now : Nat)
    (dto : CreateUserDto) (hashed : String) : Except DbError (List User × User) :=
  if s.any (fun u => u.email == dto.email || u.username == dto.username) then
    .error .uniqueViolation
  else
    let u : User :=
      { id := newId
        email := dto.email
        username := dto.username
        firstName := dto.firstName
        lastName := dto.lastName
        password := hashed
        role := dto.role.getD "user"
        profilePicture := dto.profilePicture
        isActive := true
        isEmailVerified := false
        emailVerificationToken := none
        passwordResetToken := none
        passwordResetExpires := none
        lastLoginAt := none
        loginAttempts := some 0
        lockUntil := none
        twoFactorSecret := none
        isTwoFactorEnabled := false
        createdAt := now
        updatedAt := now }
    .ok (s ++ [u], u)

/-- `db.update(users).set(...).where(eq(users.id, id))`: rewrites the matched
row and raises 23505 when the rewritten row collides with a different row on
email or username. -/
def dbUpdateUser (s : List User) (id : String) (dto : UpdateUserDto)
    (now : Nat) : Except DbError (List User) :=
  match lookupId s id with
  | none => .ok s
  | some u =>
    let u' := applyUpdateDto u dto now
    if s.any (fun v => v.id != id && (v.email == u'.email || v.username == u'.username)) then
      .error .uniqueViolation
    else
      .ok (s.map (fun v => if v.id == id then u' else v))

/-- `UsersService.checkUserExists(email?, username?, excludeId?)`
(users.service.ts 345-379): pre-checks uniqueness by querying for the
lowercased email / username and throws `ConflictException` on a hit. -/
def checkUserExists (s : List User) (email username : Option String)
    (excludeId : Option String) : Option HttpError :=
  if email.isNone && username.isNone then none
  else
    let emailHit : User → Bool := fun u =>
      match email with
      | some e => u.email == asciiLower e
      | none => false
    let usernameHit : User → Bool := fun u =>
      match username with
      | some n => u.username == asciiLower n
      | none => false
    let notExcluded : User → Bool := fun u =>
      match excludeId with
      | some i => u.id != i
      | none => true
    match s.find? (fun u => (emailHit u || usernameHit u) && notExcluded u) with
    | none => none
    | some existing =>
      if emailHit existing then
        some (.conflict "User with this email already exists")
      else if usernameHit existing then
        some (.conflict "User with this username already exists")
      else none

/-- `UsersService.create` (users.service.ts 33-61).  The uniqueness pre-check
reads the store at one instant (`sCheck`) while the insert executes against
the store as it stands when the write reaches the database (`sInsert`); in
the single-writer case the two coincide, and a concurrent registration is the
case `sCheck ≠ sInsert`.  A 23505 from the insert is caught and rethrown as
`ConflictException`. -/
def createUser (hashPw : String → String) (sCheck sInsert : List User)
    (newId : String) (now : Nat) (dto : CreateUserDto) :
    List User × Except HttpError UserResponseDto :=
  match checkUserExists sCheck (some dto.email) (some dto.username) none with
  | some e => (sInsert, .error e)
  | none =>
    match dbInsertUser sInsert newId now dto (hashPw dto.password) with
    | .error .uniqueViolation =>
      (sInsert, .error (.conflict "User with this email or username already exists"))
    | .ok (s', u) => (s', .ok (transformToResponseDto u))

/-- `UsersService.update` (users.service.ts 174-213): existence check,
conditional uniqueness pre-check (only when email/username are being
updated), then the UPDATE with 23505 mapped to `ConflictException`. -/
def updateUser (s : List User) (now : Nat) (id : String) (dto : UpdateUserDto) :
    List User × Except HttpError UserResponseDto :=
  match lookupId s id with
  | none => (s, .error (.notFound "User not found"))
  | some _ =>
    let conflict : Option HttpError :=
      if dto.email.isSome || dto.username.isSome then
        checkUserExists s dto.email dto.username (some id)
      else none
    match conflict with
    | some e => (s, .error e)
    | none =>
      match dbUpdateUser s id dto now with
      | .error .uniqueViolation =>
        (s, .error (.conflict "User with this email or username already exists"))
      | .ok s' =>
        match lookupId s' id with
        | some u' => (s', .ok (transformToResponseDto u'))
        | none => (s', .error (.notFound "User not found"))

/-- `UsersService.findByEmail` (users.service.ts 154-162): queries by the
lowercased email and transforms the row to the response DTO. -/
def findByEmail (s : List User) (email : String) : Option UserResponseDto :=
  (lookupEmail s (asciiLower email)).map transformToResponseDto

/-- Stable insertion into a list sorted by `createdAt` descending. -/
def insertRowDesc (u : User) : List User → List User
  | [] => [u]
  | v :: t => if v.createdAt < u.createdAt then u :: v :: t else v :: insertRowDesc u t

/-- The default `ORDER BY "created_at" DESC` of
`FilterUtil.buildSortCondition` when no sort field is supplied. -/
def sortByCreatedAtDesc : List User → List User
  | [] => []
  | u :: t => insertRowDesc u (sortByCreatedAtDesc t)

/-- `UsersService.findAll` with no filters, as invoked by `resetPassword`
(`{ limit: 1000 }`): `PaginationUtil.validateAndNormalizePagination` caps the
limit at `MAX_LIMIT = 100` with page 1 / offset 0, the data query orders by
`created_at DESC`, and each selected row (whose column list omits `password`
and both reset fields) is passed through `transformToResponseDto`. -/
def findAllNoFilter (s : List User) (limit : Nat) : List UserResponseDto :=
  let normLimit := min (max 1 limit) 100
  (((sortByCreatedAtDesc s).drop 0).take normLimit).map transformToResponseDto

/-- The two payload shapes `AuthService` signs (`JwtPayload` and
`RefreshTokenPayload` in auth.service.ts). -/
inductive JwtClaims where
  | access (sub email username role : String)
  | refresh (sub : String) (tokenVersion : Nat)
deriving Repr, DecidableEq

/-- `payload.sub`: both payload shapes carry a subject id. -/
def JwtClaims.sub : JwtClaims → String
  | .access s _ _ _ => s
  | .refresh s _ => s

/-- A structurally valid signed JWT: its claims, the secret it was signed
with, and its absolute expiry instant. -/
structure SignedToken where
  claims : JwtClaims
  secret : String
  exp : Nat
deriving Repr, DecidableEq

/-- The distinct failure modes of `jwtService.verify`. -/
inductive JwtError where
  | malformed
  | signatureMismatch
  | expired
deriving Repr, DecidableEq

/-- `this.jwtService.verify(token, { secret })`: parse, check the signature
against `secret`, check expiry against `now`. -/
def jwtVerify (token : Option SignedToken) (secret : String) (now : Nat) :
    Except JwtError JwtClaims :=
  match token with
  | none => .error .malformed
  | some t =>
    if t.secret ≠ secret then .error .signatureMismatch
    else if t.exp ≤ now then .error .expired
    else .ok t.claims

structure TokenPair where
  accessToken : SignedToken
  refreshToken : SignedToken
deriving Repr, DecidableEq

/-- `AuthService.generateTokens` (auth.service.ts 261-288): reads exactly
`id`, `email`, `username`, `role` from the user object, signs the access
payload with `jwtSecret` and the refresh payload (hardcoded
`tokenVersion: 1`) with `jwtRefreshSecret`. -/
def generateTokens (cfg : AppConfig) (now : Nat)
    (sub email username role : String) : TokenPair :=
  { accessToken :=
      { claims := .access sub email username role
        secret := cfg.jwtSecret
        exp := now + cfg.jwtExpiresIn }
    refreshToken :=
      { claims := .refresh sub 1
        secret := cfg.jwtRefreshSecret
        exp := now + cfg.jwtRefreshExpiresIn } }

/-- `AuthService.findUserForAuthentication` (auth.service.ts 236-248):
the raw row fetched by `eq(users.email, email.toLowerCase())`. -/
def findUserForAuthentication (s : List User) (email : String) : Option User :=
  lookupEmail s (asciiLower email)

/-- The `AuthResponse` returned by `login`. -/
structure AuthResponse where
  user : UserResponseDto
  accessToken : SignedToken
  refreshToken : SignedToken
deriving Repr, DecidableEq

/-- `AuthService.login` (auth.service.ts 79-123): lock check (by the supplied
email string), credential fetch (by the lowercased email), password
verification, active check, attempt bookkeeping (by the supplied email
string), token issuance, and the `findOne` re-read for the response DTO. -/
def login (cfg : AppConfig) (verify : String → String → Bool)
    (s : List User) (now : Nat) (email password : String) :
    List User × Except HttpError AuthResponse :=
  let lockedPair := isAccountLocked s now email
  if lockedPair.1 then
    (lockedPair.2, .error (.unauthorized
      "Account is temporarily locked due to too many failed login attempts"))
  else
    let s1 := lockedPair.2
    match findUserForAuthentication s1 email with
    | none =>
      (updateLoginAttempts s1 now email false,
       .error (.unauthorized "Invalid credentials"))
    | some user =>
      if ¬ verify password user.password then
        (updateLoginAttempts s1 now email false,
         .error (.unauthorized "Invalid credentials"))
      else if ¬ user.isActive then
        (s1, .error (.unauthorized "Account is deactivated"))
      else
        let s2 := updateLoginAttempts s1 now email true
        let tokens := generateTokens cfg now user.id user.email user.username user.role
        match lookupId s2 user.id with
        | none => (s2, .error (.notFound "User not found"))
        | some u2 =>
          (s2, .ok { user := transformToResponseDto u2
                     accessToken := tokens.accessToken
                     refreshToken := tokens.refreshToken })

/-- `AuthService.refreshTokens` (auth.service.ts 139-156): verify with the
refresh secret, `findOne` by `payload.sub`, reject missing/inactive accounts,
re-issue both tokens; the surrounding try/catch turns every failure into the
single `UnauthorizedException('Invalid refresh token')`. -/
def refreshTokens (cfg : AppConfig) (s : List User) (now : Nat)
    (token : Option SignedToken) : Except HttpError TokenPair :=
  match jwtVerify token cfg.jwtRefreshSecret now with
  | .error _ => .error (.unauthorized "Invalid refresh token")
  | .ok payload =>
    match lookupId s payload.sub with
    | none => .error (.unauthorized "Invalid refresh token")
    | some user =>
      if ¬ user.isActive then .error (.unauthorized "Invalid refresh token")
      else .ok (generateTokens cfg now user.id user.email user.username user.role)

/-- `AuthService.forgotPassword` (auth.service.ts 181-206): look the account
up by email; if absent return the fixed message immediately, otherwise store
a fresh reset token with `passwordResetExpires = now + 3600000` via
`usersService.update` and return the same fixed message.  `resetToken` is
the value produced by `generatePasswordResetToken` (Math.random-based,
modelled as an input). -/
def forgotPassword (s : List User) (now : Nat) (resetToken : String)
    (email : String) : List User × Except HttpError String :=
  match findByEmail s email with
  | none =>
    (s, .ok "If the email exists, a password reset link has been sent")
  | some user =>
    match updateUser s now user.id
        { passwordResetToken := some (some resetToken)
          passwordResetExpires := some (some (now + 3600000)) } with
    | (s1, .ok _) =>
      (s1, .ok "If the email exists, a password reset link has been sent")
    | (s1, .error e) => (s1, .error e)

/-- `AuthService.resetPassword` (auth.service.ts 208-233): scan the first
page of `findAll({ limit: 1000 })` for a DTO whose `passwordResetToken`
equals the supplied token and whose `passwordResetExpires` lies in the
future; on a miss throw `BadRequestException('Invalid or expired reset
token')`, on a hit store the new hash and clear both reset fields. -/
def resetPassword (hashPw : String → String) (s : List User) (now : Nat)
    (token : String) (newPassword : String) :
    List User × Except HttpError String :=
  let dtos := findAllNoFilter s 1000
  match dtos.find? (fun u =>
      u.passwordResetToken == some token &&
      (match u.passwordResetExpires with
       | some e => now < e
       | none => false)) with
  | none => (s, .error (.badRequest "Invalid or expired reset token"))
  | some user =>
    match updateUser s now user.id
        { password := some (hashPw newPassword)
          passwordResetToken := some none
          passwordResetExpires := some none } with
    | (s1, .ok _) => (s1, .ok "Password reset successfully")
    | (s1, .error e) => (s1, .error e)

/-! ### Helper lemmas -/

/-- An `UPDATE ... WHERE email = e` rewrites exactly the row a subsequent
`SELECT ... WHERE email = e` returns, provided the rewrite keeps the email. -/
theorem lookupEmail_map_if (s : List User) (e : String) (g : User → User)
    (hg : ∀ u, (g u).email = u.email) :
    lookupEmail (s.map (fun v => if v.email == e then g v else v)) e
      = (lookupEmail s e).map g := by
  induction s with
  | nil => rfl
  | cons a t ih =>
    by_cases h : a.email = e
    · simp [lookupEmail, List.find?, h, hg]
    · have hb : (a.email == e) = false := by simp [h]
      simpa [lookupEmail, List.find?, hb] using ih

/-- A store in which no row carries email `e` answers `none` to the
corresponding select. -/
theorem lookupEmail_eq_none (s : List User) (e : String)
    (h : ∀ u ∈ s, u.email ≠ e) : lookupEmail s e = none := by
  apply List.find?_eq_none.mpr
  intro u hu
  simp [h u hu]

/-- C7: for every email for which no account exists, recording a failed login
attempt is a no-op: it returns without error and leaves the entire store
state unchanged. -/
theorem updateLoginAttempts_unknown_email_noop (s : List User) (now : Nat)
    (e : String) (h : ∀ u ∈ s, u.email ≠ e) :
    updateLoginAttempts s now e false = s := by
  unfold updateLoginAttempts
  rw [if_neg (by simp), lookupEmail_eq_none s e h]

def cfgW : AppConfig :=
  { jwtSecret := "access-secret"
    jwtRefreshSecret := "refresh-secret"
    jwtExpiresIn := 900000
    jwtRefreshExpiresIn := 604800000
    bcryptRounds := 12 }

def userA : User :=
  { id := "u1"
    email := "a@x.com"
    username := "alice"
    firstName := "Ada"
    lastName := "Love"
    password := "hashA"
    role := "user"
    profilePicture := none
    isActive := true
    isEmailVerified := false
    emailVerificationToken := none
    passwordResetToken := none
    passwordResetExpires := none
    lastLoginAt := none
    loginAttempts := some 0
    lockUntil := none
    twoFactorSecret := none
    isTwoFactorEnabled := false
    createdAt := 10
    updatedAt := 10 }

theorem updateLoginAttempts_unknown_email_noop_witness :
    updateLoginAttempts [userA] 5 "b@x.com" false = [userA] :=
  updateLoginAttempts_unknown_email_noop [userA] 5 "b@x.com" (by decide)

/-- C2: `resetPassword` can never succeed: the DTOs it scans come out of
`findAll`, whose select list and `@Exclude()` transforms leave
`passwordResetToken` undefined, so the token comparison is
`undefined === token` and the lookup always misses — the call throws
`BadRequestException('Invalid or expired reset token')` for every store,
every instant and every token, and leaves the store unchanged. -/
theorem resetPassword_never_succeeds (hashPw : String → String)
    (s : List User) (now : Nat) (token newPassword : String) :
    resetPassword hashPw s now token newPassword
      = (s, .error (.badRequest "Invalid or expired reset token")) := by
  unfold resetPassword
  have hnone : (findAllNoFilter s 1000).find? (fun u =>
      u.passwordResetToken == some token &&
      (match u.passwordResetExpires with
       | some e => now < e
       | none => false)) = none := by
    apply List.find?_eq_none.mpr
    intro x hx
    unfold findAllNoFilter at hx
    obtain ⟨u, _, rfl⟩ := List.mem_map.mp hx
    simp [transformToResponseDto]
  simp only [hnone]

/-- C1: recording a failed attempt for an existing account increments its
`loginAttempts` by exactly one and stamps `lockUntil = now + 2h` as soon as
the new value reaches the threshold of 5; and while `lockUntil` lies in the
future, `login` for that account fails with the account-locked error and
leaves the store untouched, for every password and every verifier. -/
theorem login_lockout_threshold (cfg : AppConfig)
    (verify : String → String → Bool) (s : List User) (now : Nat)
    (e pw : String) (u : User) (hfind : lookupEmail s e = some u) :
    (∃ u', lookupEmail (updateLoginAttempts s now e false) e = some u' ∧
       u'.loginAttempts = some (u.loginAttempts.getD 0 + 1) ∧
       (u.loginAttempts.getD 0 + 1 ≥ maxLoginAttempts →
          u'.lockUntil = some (now + lockTime))) ∧
    (∀ t, u.lockUntil = some t → now < t →
       login cfg verify s now e pw =
         (s, .error (.unauthorized
           "Account is temporarily locked due to too many failed login attempts"))) := by
  constructor
  · have hmap := lookupEmail_map_if s e
      (fun v => { v with
        loginAttempts := some (u.loginAttempts.getD 0 + 1)
        lockUntil := if u.loginAttempts.getD 0 + 1 ≥ maxLoginAttempts then
            some (now + lockTime) else none
        updatedAt := now })
      (fun _ => rfl)
    rw [hfind, Option.map_some'] at hmap
    refine ⟨{ u with
        loginAttempts := some (u.loginAttempts.getD 0 + 1)
        lockUntil := if u.loginAttempts.getD 0 + 1 ≥ maxLoginAttempts then
            some (now + lockTime) else none
        updatedAt := now }, ?_, rfl, ?_⟩
    · unfold updateLoginAttempts
      simp only [Bool.false_eq_true, if_false, hfind]
      exact hmap
    · intro h
      simp [h]
  · intro t ht hlt
    simp [login, isAccountLocked, hfind, ht, hlt]

def lockedUser : User :=
  { userA with loginAttempts := some 5, lockUntil := some 1000 }

theorem login_lockout_threshold_witness :
    (∃ u', lookupEmail (updateLoginAttempts [lockedUser] 50 "a@x.com" false)
        "a@x.com" = some u' ∧
       u'.loginAttempts = some (lockedUser.loginAttempts.getD 0 + 1) ∧
       (lockedUser.loginAttempts.getD 0 + 1 ≥ maxLoginAttempts →
          u'.lockUntil = some (50 + lockTime))) ∧
    login cfgW (fun _ _ => true) [lockedUser] 50 "a@x.com" "CorrectPw1!" =
      ([lockedUser], .error (.unauthorized
        "Account is temporarily locked due to too many failed login attempts")) :=
  ⟨(login_lockout_threshold cfgW (fun _ _ => true) [lockedUser] 50 "a@x.com"
      "CorrectPw1!" lockedUser (by decide)).1,
   (login_lockout_threshold cfgW (fun _ _ => true) [lockedUser] 50 "a@x.com"
      "CorrectPw1!" lockedUser (by decide)).2 1000 rfl (by decide)⟩

/-- The success/reset branch of `updateLoginAttempts` as a plain map. -/
theorem updateLoginAttempts_reset_eq (s : List User) (now : Nat) (e : String) :
    updateLoginAttempts s now e true
      = s.map (fun v => if v.email == e then
          { v with
            loginAttempts := some 0
            lockUntil := none
            lastLoginAt := some now
            updatedAt := now }
          else v) := rfl

/-- C10: when an account's `lockUntil` is non-null and already in the past,
`isAccountLocked` answers `false` and performs the expiry reset through the
success path of `updateLoginAttempts`, which not only zeroes `loginAttempts`
and clears `lockUntil` but also stamps `lastLoginAt = now`, although no
successful login happened. -/
theorem isAccountLocked_expired_sets_lastLoginAt (s : List User) (now : Nat)
    (e : String) (u : User) (t : Nat)
    (hfind : lookupEmail s e = some u)
    (hlock : u.lockUntil = some t)
    (hpast : t ≤ now) :
    (isAccountLocked s now e).1 = false ∧
    ∃ u', lookupEmail (isAccountLocked s now e).2 e = some u' ∧
      u'.loginAttempts = some 0 ∧ u'.lockUntil = none ∧
      u'.lastLoginAt = some now := by
  have hres : isAccountLocked s now e = (false, updateLoginAttempts s now e true) := by
    simp only [isAccountLocked, hfind, hlock]
    rw [if_neg (by omega)]
  have hmap := lookupEmail_map_if s e
      (fun v => { v with
        loginAttempts := some 0
        lockUntil := none
        lastLoginAt := some now
        updatedAt := now })
      (fun _ => rfl)
  rw [hfind, Option.map_some'] at hmap
  rw [hres]
  refine ⟨rfl, ?_⟩
  rw [updateLoginAttempts_reset_eq]
  exact ⟨_, hmap, rfl, rfl, rfl⟩

theorem isAccountLocked_expired_sets_lastLoginAt_witness :
    (isAccountLocked [lockedUser] 2000 "a@x.com").1 = false ∧
    ∃ u', lookupEmail (isAccountLocked [lockedUser] 2000 "a@x.com").2 "a@x.com"
        = some u' ∧
      u'.loginAttempts = some 0 ∧ u'.lockUntil = none ∧
      u'.lastLoginAt = some 2000 :=
  isAccountLocked_expired_sets_lastLoginAt [lockedUser] 2000 "a@x.com"
    lockedUser 1000 (by decide) rfl (by decide)

/-- C3: a successful login (account present under the supplied email, which
the lowercasing fetch also finds, correct password, active, not locked)
returns ok and leaves the account with `loginAttempts = 0`,
`lockUntil = null` and `lastLoginAt = now`. -/
theorem login_success_resets_counters (cfg : AppConfig)
    (verify : String → String → Bool) (s : List User) (now : Nat)
    (e pw : String) (u : User)
    (hlow : asciiLower e = e)
    (hfind : lookupEmail s e = some u)
    (hnolock : u.lockUntil = none)
    (hpw : verify pw u.password = true)
    (hactive : u.isActive = true) :
    (∃ resp, (login cfg verify s now e pw).2 = .ok resp) ∧
    ∃ u', lookupEmail (login cfg verify s now e pw).1 e = some u' ∧
      u'.loginAttempts = some 0 ∧ u'.lockUntil = none ∧
      u'.lastLoginAt = some now := by
  have hfind' : List.find? (fun v => v.email == e) s = some u := hfind
  have hauth : findUserForAuthentication s e = some u := by
    unfold findUserForAuthentication
    rw [hlow]
    exact hfind
  have hlocked : isAccountLocked s now e = (false, s) := by
    simp only [isAccountLocked, hfind, hnolock]
  have humem : u ∈ s := List.mem_of_find?_eq_some hfind'
  have hue : (u.email == e) = true := by simpa using List.find?_some hfind'
  obtain ⟨u2, hu2⟩ : ∃ x, lookupId (updateLoginAttempts s now e true) u.id = some x := by
    rw [updateLoginAttempts_reset_eq]
    unfold lookupId
    apply Option.isSome_iff_exists.mp
    apply List.find?_isSome.mpr
    refine ⟨_, List.mem_map.mpr ⟨u, humem, rfl⟩, ?_⟩
    simp [hue]
  have hlogin : login cfg verify s now e pw
      = (updateLoginAttempts s now e true,
         .ok { user := transformToResponseDto u2
               accessToken := (generateTokens cfg now u.id u.email u.username u.role).accessToken
               refreshToken := (generateTokens cfg now u.id u.email u.username u.role).refreshToken }) := by
    simp only [login, hlocked, hauth, hpw, hactive, hu2]
    simp
  rw [hlogin]
  have hmap := lookupEmail_map_if s e
      (fun v => { v with
        loginAttempts := some 0
        lockUntil := none
        lastLoginAt := some now
        updatedAt := now })
      (fun _ => rfl)
  rw [hfind, Option.map_some'] at hmap
  refine ⟨⟨_, rfl⟩, ?_⟩
  rw [updateLoginAttempts_reset_eq]
  exact ⟨_, hmap, rfl, rfl, rfl⟩

def vOK : String → String → Bool := fun p h => p == "Secret1!" && h == "hashA"

theorem login_success_resets_counters_witness :
    (∃ resp, (login cfgW vOK [userA] 99 "a@x.com" "Secret1!").2 = .ok resp) ∧
    ∃ u', lookupEmail (login cfgW vOK [userA] 99 "a@x.com" "Secret1!").1
        "a@x.com" = some u' ∧
      u'.loginAttempts = some 0 ∧ u'.lockUntil = none ∧
      u'.lastLoginAt = some 99 :=
  login_success_resets_counters cfgW vOK [userA] 99 "a@x.com" "Secret1!" userA
    (by decide) (by decide) rfl (by decide) rfl

/-- C9: lockout bookkeeping is keyed by the exact supplied email string while
the credential fetch lowercases it.  If every stored email is lowercase and
the supplied email is not identical to its lowercased form (it contains an
uppercase letter), then a wrong-password attempt still finds the account,
fails with the invalid-credentials error, and leaves the whole store — in
particular that account's `loginAttempts` and `lockUntil` — unchanged, so
such attempts can never contribute to a lockout. -/
theorem login_case_mismatch_no_lockout (cfg : AppConfig)
    (verify : String → String → Bool) (s : List User) (now : Nat)
    (e pw : String) (u : User)
    (hstoredLower : ∀ v ∈ s, asciiLower v.email = v.email)
    (hupper : asciiLower e ≠ e)
    (hfetch : lookupEmail s (asciiLower e) = some u)
    (hpw : verify pw u.password = false) :
    login cfg verify s now e pw = (s, .error (.unauthorized "Invalid credentials")) := by
  have hmiss : lookupEmail s e = none := by
    apply lookupEmail_eq_none
    intro v hv hveq
    exact hupper (hveq ▸ hstoredLower v hv)
  have hlocked : isAccountLocked s now e = (false, s) := by
    simp only [isAccountLocked, hmiss]
  have hauth : findUserForAuthentication s e = some u := hfetch
  have hrecord : updateLoginAttempts s now e false = s := by
    unfold updateLoginAttempts
    rw [if_neg (by simp), hmiss]
  simp only [login, hlocked, hauth, hrecord, hpw]
  simp

theorem login_case_mismatch_no_lockout_witness :
    login cfgW (fun _ _ => false) [userA] 77 "A@x.com" "WrongPw1!"
      = ([userA], .error (.unauthorized "Invalid credentials")) :=
  login_case_mismatch_no_lockout cfgW (fun _ _ => false) [userA] 77 "A@x.com"
    "WrongPw1!" userA (by decide) (by decide) (by decide) rfl

/-- C5: a login that fails because the email is unknown and a login that
fails because the password does not match surface the very same error value
(`UnauthorizedException('Invalid credentials')`): the two failure outcomes
are indistinguishable to the caller. -/
theorem login_error_indistinguishable
    (cfgA cfgB : AppConfig) (vA vB : String → String → Bool)
    (sA sB : List User) (nA nB : Nat) (eA eB pA pB : String) (uB : User)
    (hA1 : (isAccountLocked sA nA eA).1 = false)
    (hA2 : findUserForAuthentication (isAccountLocked sA nA eA).2 eA = none)
    (hB1 : (isAccountLocked sB nB eB).1 = false)
    (hB2 : findUserForAuthentication (isAccountLocked sB nB eB).2 eB = some uB)
    (hB3 : vB pB uB.password = false) :
    (login cfgA vA sA nA eA pA).2 = (login cfgB vB sB nB eB pB).2 ∧
    (login cfgA vA sA nA eA pA).2 = .error (.unauthorized "Invalid credentials") := by
  have hA : (login cfgA vA sA nA eA pA).2 = .error (.unauthorized "Invalid credentials") := by
    simp only [login, hA1, hA2]
    simp
  have hB : (login cfgB vB sB nB eB pB).2 = .error (.unauthorized "Invalid credentials") := by
    simp only [login, hB1, hB2, hB3]
    simp
  exact ⟨hA.trans hB.symm, hA⟩

theorem login_error_indistinguishable_witness :
    (login cfgW vOK [userA] 3 "nobody@x.com" "Secret1!").2
      = (login cfgW vOK [userA] 3 "a@x.com" "WrongPw1!").2 ∧
    (login cfgW vOK [userA] 3 "nobody@x.com" "Secret1!").2
      = .error (.unauthorized "Invalid credentials") :=
  login_error_indistinguishable cfgW cfgW vOK vOK [userA] [userA] 3 3
    "nobody@x.com" "a@x.com" "Secret1!" "WrongPw1!" userA
    rfl (by decide) rfl (by decide) rfl

/-- C6: `refreshTokens` verifies signature and expiry against the refresh
secret, loads the account by the token's subject id, rejects a missing or
inactive account, and otherwise re-issues a fresh access/refresh token pair;
and each failure sub-case — malformed token, wrong-secret signature, expired
token, missing account, inactive account — is surfaced as the one opaque
`UnauthorizedException('Invalid refresh token')`. -/
theorem refreshTokens_spec (cfg : AppConfig) (s : List User) (now : Nat) :
    (∀ t u, t.secret = cfg.jwtRefreshSecret → now < t.exp →
       lookupId s t.claims.sub = some u → u.isActive = true →
       refreshTokens cfg s now (some t)
         = .ok (generateTokens cfg now u.id u.email u.username u.role)) ∧
    (refreshTokens cfg s now none
       = .error (.unauthorized "Invalid refresh token")) ∧
    (∀ t, t.secret ≠ cfg.jwtRefreshSecret →
       refreshTokens cfg s now (some t)
         = .error (.unauthorized "Invalid refresh token")) ∧
    (∀ t, t.exp ≤ now →
       refreshTokens cfg s now (some t)
         = .error (.unauthorized "Invalid refresh token")) ∧
    (∀ t, lookupId s t.claims.sub = none →
       refreshTokens cfg s now (some t)
         = .error (.unauthorized "Invalid refresh token")) ∧
    (∀ t u, lookupId s t.claims.sub = some u → u.isActive = false →
       refreshTokens cfg s now (some t)
         = .error (.unauthorized "Invalid refresh token")) := by
  refine ⟨?_, rfl, ?_, ?_, ?_, ?_⟩
  · intro t u hsec hexp hfound hactive
    have hexp' : ¬ t.exp ≤ now := by omega
    simp only [refreshTokens, jwtVerify]
    rw [if_neg (by simp [hsec]), if_neg hexp']
    simp only [hfound, hactive]
    simp
  · intro t hsec
    simp only [refreshTokens, jwtVerify]
    rw [if_pos hsec]
  · intro t hexp
    by_cases hsec : t.secret = cfg.jwtRefreshSecret
    · simp only [refreshTokens, jwtVerify]
      rw [if_neg (by simp [hsec]), if_pos hexp]
    · simp only [refreshTokens, jwtVerify]
      rw [if_pos hsec]
  · intro t hmiss
    by_cases hsec : t.secret = cfg.jwtRefreshSecret
    · by_cases hexp : t.exp ≤ now
      · simp only [refreshTokens, jwtVerify]
        rw [if_neg (by simp [hsec]), if_pos hexp]
      · simp only [refreshTokens, jwtVerify]
        rw [if_neg (by simp [hsec]), if_neg hexp]
        simp only [hmiss]
    · simp only [refreshTokens, jwtVerify]
      rw [if_pos hsec]
  · intro t u hfound hinactive
    by_cases hsec : t.secret = cfg.jwtRefreshSecret
    · by_cases hexp : t.exp ≤ now
      · simp only [refreshTokens, jwtVerify]
        rw [if_neg (by simp [hsec]), if_pos hexp]
      · simp only [refreshTokens, jwtVerify]
        rw [if_neg (by simp [hsec]), if_neg hexp]
        simp only [hfound, hinactive]
        simp
    · simp only [refreshTokens, jwtVerify]
      rw [if_pos hsec]

def inactiveUser : User :=
  { userA with
    id := "u2"
    email := "b@x.com"
    username := "bob"
    isActive := false }

def tokW : SignedToken :=
  { claims := .refresh "u1" 1, secret := "refresh-secret", exp := 5000 }

def tokWrongSecret : SignedToken :=
  { claims := .refresh "u1" 1, secret := "other-secret", exp := 5000 }

def tokGhost : SignedToken :=
  { claims := .refresh "zz" 1, secret := "refresh-secret", exp := 5000 }

def tokInactive : SignedToken :=
  { claims := .refresh "u2" 1, secret := "refresh-secret", exp := 5000 }

theorem refreshTokens_spec_witness :
    refreshTokens cfgW [userA, inactiveUser] 100 (some tokW)
      = .ok (generateTokens cfgW 100 userA.id userA.email userA.username userA.role) ∧
    refreshTokens cfgW [userA, inactiveUser] 100 none
      = .error (.unauthorized "Invalid refresh token") ∧
    refreshTokens cfgW [userA, inactiveUser] 100 (some tokWrongSecret)
      = .error (.unauthorized "Invalid refresh token") ∧
    refreshTokens cfgW [userA, inactiveUser] 6000 (some tokW)
      = .error (.unauthorized "Invalid refresh token") ∧
    refreshTokens cfgW [userA, inactiveUser] 100 (some tokGhost)
      = .error (.unauthorized "Invalid refresh token") ∧
    refreshTokens cfgW [userA, inactiveUser] 100 (some tokInactive)
      = .error (.unauthorized "Invalid refresh token") :=
  ⟨(refreshTokens_spec cfgW [userA, inactiveUser] 100).1 tokW userA rfl
      (by decide) (by decide) rfl,
   (refreshTokens_spec cfgW [userA, inactiveUser] 100).2.1,
   (refreshTokens_spec cfgW [userA, inactiveUser] 100).2.2.1 tokWrongSecret (by decide),
   (refreshTokens_spec cfgW [userA, inactiveUser] 6000).2.2.2.1 tokW (by decide),
   (refreshTokens_spec cfgW [userA, inactiveUser] 100).2.2.2.2.1 tokGhost (by decide),
   (refreshTokens_spec cfgW [userA, inactiveUser] 100).2.2.2.2.2 tokInactive
      inactiveUser (by decide) rfl⟩

/-- The database-level invariants of the `users` table: `id` is the primary
key and `email` / `username` carry unique indexes, so equality on any of the
three pins down the row. -/
abbrev wellFormedStore (s : List User) : Prop :=
  (∀ v ∈ s, ∀ w ∈ s, v.id = w.id → v = w) ∧
  (∀ v ∈ s, ∀ w ∈ s, v.email = w.email → v = w) ∧
  (∀ v ∈ s, ∀ w ∈ s, v.username = w.username → v = w)

/-- `usersService.update` succeeds whenever the target row exists, the dto
touches neither `email` nor `username`, and the store satisfies the unique
indexes. -/
theorem updateUser_no_key_change_ok (s : List User) (now : Nat) (id : String)
    (dto : UpdateUserDto)
    (hemail : dto.email = none) (husername : dto.username = none)
    (hwf : wellFormedStore s) (u : User) (humem : u ∈ s) (hid : u.id = id) :
    ∃ s1 d, updateUser s now id dto = (s1, .ok d) := by
  obtain ⟨w, hw⟩ : ∃ x, lookupId s id = some x := by
    unfold lookupId
    apply Option.isSome_iff_exists.mp
    apply List.find?_isSome.mpr
    exact ⟨u, humem, by simp [hid]⟩
  have hw' : List.find? (fun v => v.id == id) s = some w := hw
  have hwmem : w ∈ s := List.mem_of_find?_eq_some hw'
  have hwid : w.id = id := by simpa using List.find?_some hw'
  have happE : (applyUpdateDto w dto now).email = w.email := by
    simp [applyUpdateDto, hemail]
  have happU : (applyUpdateDto w dto now).username = w.username := by
    simp [applyUpdateDto, husername]
  have happI : (applyUpdateDto w dto now).id = w.id := rfl
  have hany : (s.any (fun v => v.id != id &&
      (v.email == (applyUpdateDto w dto now).email ||
       v.username == (applyUpdateDto w dto now).username))) = false := by
    rw [List.any_eq_false]
    intro v hv
    rw [happE, happU]
    simp only [Bool.and_eq_true, bne_iff_ne, Bool.or_eq_true, beq_iff_eq]
    rintro ⟨hne, hor⟩
    cases hor with
    | inl h2 => exact hne (by rw [hwf.2.1 v hv w hwmem h2, hwid])
    | inr h2 => exact hne (by rw [hwf.2.2 v hv w hwmem h2, hwid])
  have hdb : dbUpdateUser s id dto now
      = .ok (s.map (fun v => if v.id == id then applyUpdateDto w dto now else v)) := by
    unfold dbUpdateUser
    rw [hw]
    simp only [hany]
    simp
  obtain ⟨u2, hu2⟩ : ∃ x, lookupId
      (s.map (fun v => if v.id == id then applyUpdateDto w dto now else v)) id
        = some x := by
    unfold lookupId
    apply Option.isSome_iff_exists.mp
    apply List.find?_isSome.mpr
    refine ⟨_, List.mem_map.mpr ⟨w, hwmem, rfl⟩, ?_⟩
    simp [hwid, happI]
  refine ⟨s.map (fun v => if v.id == id then applyUpdateDto w dto now else v),
    transformToResponseDto u2, ?_⟩
  have hu2' : lookupId
      (s.map (fun v => if v.id = id then applyUpdateDto w dto now else v)) id
        = some u2 := by
    simpa using hu2
  unfold updateUser
  rw [hw]
  simp [hemail, husername, hdb, hu2']

/-- On a store satisfying the unique indexes, `forgotPassword` always
answers with the one fixed message, in the found branch as well as in the
not-found branch. -/
theorem forgotPassword_fixed_message (s : List User) (now : Nat)
    (tok e : String) (hwf : wellFormedStore s) :
    (forgotPassword s now tok e).2
      = .ok "If the email exists, a password reset link has been sent" := by
  unfold forgotPassword
  cases hfe : findByEmail s e with
  | none => simp
  | some dto =>
    have hfe' := hfe
    unfold findByEmail at hfe'
    obtain ⟨u, hu⟩ : ∃ u, lookupEmail s (asciiLower e) = some u := by
      cases hl : lookupEmail s (asciiLower e) with
      | none => rw [hl] at hfe'; simp at hfe'
      | some u => exact ⟨u, rfl⟩
    rw [hu, Option.map_some'] at hfe'
    injection hfe' with hdto
    have hu' : List.find? (fun v => v.email == asciiLower e) s = some u := hu
    have humem : u ∈ s := List.mem_of_find?_eq_some hu'
    obtain ⟨s1, d, hupd⟩ := updateUser_no_key_change_ok s now dto.id
      { passwordResetToken := some (some tok)
        passwordResetExpires := some (some (now + 3600000)) }
      rfl rfl hwf u humem (by rw [← hdto]; rfl)
    simp [hupd]

/-- C4: `forgotPassword` returns a payload that is identical whether or not
the supplied email belongs to a registered account: on any two well-formed
stores — one containing the email, one not — the responses are equal. -/
theorem forgotPassword_uniform_response (s1 s2 : List User) (n1 n2 : Nat)
    (tok1 tok2 e : String)
    (hwf1 : wellFormedStore s1) (hwf2 : wellFormedStore s2)
    (hreg : ∃ u ∈ s1, u.email = asciiLower e)
    (hunreg : ∀ u ∈ s2, u.email ≠ asciiLower e) :
    (forgotPassword s1 n1 tok1 e).2 = (forgotPassword s2 n2 tok2 e).2 := by
  rw [forgotPassword_fixed_message s1 n1 tok1 e hwf1,
      forgotPassword_fixed_message s2 n2 tok2 e hwf2]

theorem forgotPassword_uniform_response_witness :
    (forgotPassword [userA] 7 "tok1" "a@x.com").2
      = (forgotPassword [inactiveUser] 8 "tok2" "a@x.com").2 :=
  forgotPassword_uniform_response [userA] [inactiveUser] 7 8 "tok1" "tok2"
    "a@x.com" (by decide) (by decide) (by decide) (by decide)

/-- `checkUserExists` with both keys supplied and no excluded id, with its
option matches reduced. -/
theorem checkUserExists_both_eq (s : List User) (e n : String) :
    checkUserExists s (some e) (some n) none
      = (match s.find? (fun u =>
            (u.email == asciiLower e || u.username == asciiLower n) && true) with
         | none => none
         | some existing =>
           if existing.email == asciiLower e then
             some (.conflict "User with this email already exists")
           else if existing.username == asciiLower n then
             some (.conflict "User with this username already exists")
           else none) := rfl

/-- The email arm of the `checkUserExists` search predicate. -/
def emailHitFn (email : Option String) (u : User) : Bool :=
  match email with
  | some e => u.email == asciiLower e
  | none => false

/-- The username arm of the `checkUserExists` search predicate. -/
def usernameHitFn (username : Option String) (u : User) : Bool :=
  match username with
  | some n => u.username == asciiLower n
  | none => false

/-- The `excludeId` filter of the `checkUserExists` search predicate. -/
def notExcludedFn (excludeId : Option String) (u : User) : Bool :=
  match excludeId with
  | some i => u.id != i
  | none => true

/-- `checkUserExists` rewritten through the named predicate arms. -/
theorem checkUserExists_eq (s : List User) (email username : Option String)
    (excludeId : Option String) :
    checkUserExists s email username excludeId
      = if email.isNone && username.isNone then none
        else
          match s.find? (fun u =>
              (emailHitFn email u || usernameHitFn username u)
                && notExcludedFn excludeId u) with
          | none => none
          | some existing =>
            if emailHitFn email existing then
              some (.conflict "User with this email already exists")
            else if usernameHitFn username existing then
              some (.conflict "User with this username already exists")
            else none := rfl

/-- Whenever some row matches the lowercased email or username supplied to
`checkUserExists` and survives the `excludeId` filter, the pre-check throws a
`ConflictException`. -/
theorem checkUserExists_hit (s : List User) (email username : Option String)
    (excludeId : Option String) (v : User) (hv : v ∈ s)
    (hmatch : (emailHitFn email v || usernameHitFn username v) = true)
    (hexcl : notExcludedFn excludeId v = true) :
    ∃ msg, checkUserExists s email username excludeId = some (.conflict msg) := by
  have hnn : (email.isNone && username.isNone) = false := by
    cases email with
    | some e => rfl
    | none =>
      cases username with
      | some n => rfl
      | none => simp [emailHitFn, usernameHitFn] at hmatch
  obtain ⟨x, hx⟩ : ∃ x, s.find? (fun u =>
      (emailHitFn email u || usernameHitFn username u)
        && notExcludedFn excludeId u) = some x := by
    apply Option.isSome_iff_exists.mp
    apply List.find?_isSome.mpr
    exact ⟨v, hv, by rw [hmatch, hexcl]; rfl⟩
  have hxp := List.find?_some hx
  have hxor : (emailHitFn email x || usernameHitFn username x) = true :=
    (Bool.and_eq_true .. |>.mp hxp).1
  rw [checkUserExists_eq, hnn]
  simp only [Bool.false_eq_true, if_false, hx]
  by_cases he : emailHitFn email x = true
  · exact ⟨"User with this email already exists", by simp [he]⟩
  · have hu : usernameHitFn username x = true := by
      rcases Bool.or_eq_true .. |>.mp hxor with h | h
      · exact absurd h he
      · exact h
    exact ⟨"User with this username already exists", by simp [he, hu]⟩

/-- C8: a registration or update whose email or username collides
case-insensitively with a stored account fails with a Conflict error before
any write (the uniqueness pre-checks of `create` and `update`, the latter
excluding the row being updated), and a unique-constraint violation raised
by the store at write time is also mapped to the same Conflict error instead
of being propagated: for the insert this is the concurrent-registration race
(`sInsert` differing from the pre-checked `sCheck`), and for the update it
is any 23505 the UPDATE itself raises after the pre-check passed. -/
theorem conflict_on_collision (hashPw : String → String)
    (sCheck sInsert : List User) (newId : String) (now : Nat)
    (dto : CreateUserDto) :
    ((∀ v ∈ sCheck, asciiLower v.email = v.email ∧ asciiLower v.username = v.username) →
     (∃ v ∈ sCheck, asciiLower v.email = asciiLower dto.email ∨
        asciiLower v.username = asciiLower dto.username) →
     (createUser hashPw sCheck sInsert newId now dto).1 = sInsert ∧
     ∃ msg, (createUser hashPw sCheck sInsert newId now dto).2
        = .error (.conflict msg)) ∧
    (checkUserExists sCheck (some dto.email) (some dto.username) none = none →
     (∃ v ∈ sInsert, v.email = dto.email ∨ v.username = dto.username) →
     createUser hashPw sCheck sInsert newId now dto
       = (sInsert, .error (.conflict "User with this email or username already exists"))) ∧
    (∀ (sU : List User) (nowU : Nat) (id : String) (dtoU : UpdateUserDto) (w : User),
     (∀ v ∈ sU, asciiLower v.email = v.email ∧ asciiLower v.username = v.username) →
     lookupId sU id = some w →
     ((∃ ne, dtoU.email = some ne ∧ ∃ v ∈ sU, (v.id != id) = true ∧
         asciiLower v.email = asciiLower ne) ∨
      (∃ nu, dtoU.username = some nu ∧ ∃ v ∈ sU, (v.id != id) = true ∧
         asciiLower v.username = asciiLower nu)) →
     (updateUser sU nowU id dtoU).1 = sU ∧
     ∃ msg, (updateUser sU nowU id dtoU).2 = .error (.conflict msg)) ∧
    (∀ (sU : List User) (nowU : Nat) (id : String) (dtoU : UpdateUserDto) (w : User),
     lookupId sU id = some w →
     checkUserExists sU dtoU.email dtoU.username (some id) = none →
     dbUpdateUser sU id dtoU nowU = .error .uniqueViolation →
     updateUser sU nowU id dtoU
       = (sU, .error (.conflict "User with this email or username already exists"))) := by
  refine ⟨?_, ?_, ?_, ?_⟩
  · intro hlow hcoll
    obtain ⟨v, hv, hcase⟩ := hcoll
    obtain ⟨x, hx⟩ : ∃ x, sCheck.find? (fun u =>
        (u.email == asciiLower dto.email || u.username == asciiLower dto.username)
          && true) = some x := by
      apply Option.isSome_iff_exists.mp
      apply List.find?_isSome.mpr
      refine ⟨v, hv, ?_⟩
      simp only [Bool.and_true, Bool.or_eq_true, beq_iff_eq]
      cases hcase with
      | inl h => exact Or.inl (by rw [← (hlow v hv).1, h])
      | inr h => exact Or.inr (by rw [← (hlow v hv).2, h])
    have hxprop : (x.email == asciiLower dto.email
        || x.username == asciiLower dto.username) = true := by
      simpa using List.find?_some hx
    have hcheck : ∃ msg, checkUserExists sCheck (some dto.email)
        (some dto.username) none = some (.conflict msg) := by
      rw [checkUserExists_both_eq, hx]
      by_cases hxe : x.email = asciiLower dto.email
      · exact ⟨"User with this email already exists", by simp [hxe]⟩
      · have hxu : x.username = asciiLower dto.username := by
          rcases Bool.or_eq_true .. |>.mp hxprop with h | h
          · exact absurd (by simpa using h) hxe
          · simpa using h
        exact ⟨"User with this username already exists", by simp [hxe, hxu]⟩
    obtain ⟨msg, hmsg⟩ := hcheck
    refine ⟨?_, msg, ?_⟩
    · unfold createUser
      rw [hmsg]
    · unfold createUser
      rw [hmsg]
  · intro hpre hrace
    obtain ⟨v, hv, hcase⟩ := hrace
    have hins : dbInsertUser sInsert newId now dto (hashPw dto.password)
        = .error .uniqueViolation := by
      unfold dbInsertUser
      rw [if_pos]
      apply List.any_eq_true.mpr
      refine ⟨v, hv, ?_⟩
      simp only [Bool.or_eq_true, beq_iff_eq]
      exact hcase
    unfold createUser
    rw [hpre, hins]
  · intro sU nowU id dtoU w hlowU hw hcoll
    have hck : ∃ msg, checkUserExists sU dtoU.email dtoU.username (some id)
        = some (.conflict msg) := by
      rcases hcoll with ⟨ne, hne, v, hv, hvid, hvc⟩ | ⟨nu, hnu, v, hv, hvid, hvc⟩
      · apply checkUserExists_hit sU dtoU.email dtoU.username (some id) v hv
        · have hve : v.email = asciiLower ne := by rw [← (hlowU v hv).1, hvc]
          simp [emailHitFn, hne, hve]
        · simpa [notExcludedFn] using hvid
      · apply checkUserExists_hit sU dtoU.email dtoU.username (some id) v hv
        · have hvu : v.username = asciiLower nu := by rw [← (hlowU v hv).2, hvc]
          simp [usernameHitFn, hnu, hvu]
        · simpa [notExcludedFn] using hvid
    obtain ⟨msg, hmsg⟩ := hck
    have hsome : (dtoU.email.isSome || dtoU.username.isSome) = true := by
      rcases hcoll with ⟨ne, hne, _⟩ | ⟨nu, hnu, _⟩
      · simp [hne]
      · simp [hnu]
    have hupd : updateUser sU nowU id dtoU = (sU, .error (.conflict msg)) := by
      unfold updateUser
      rw [hw]
      simp [hsome, hmsg]
    exact ⟨by rw [hupd], msg, by rw [hupd]⟩
  · intro sU nowU id dtoU w hw hpre hdb
    unfold updateUser
    rw [hw]
    by_cases hb : (dtoU.email.isSome || dtoU.username.isSome) = true
    · simp [hb, hpre, hdb]
    · have hb' : (dtoU.email.isSome || dtoU.username.isSome) = false := by
        cases h2 : (dtoU.email.isSome || dtoU.username.isSome) with
        | true => exact absurd h2 hb
        | false => rfl
      simp [hb', hdb]

def dtoColl : CreateUserDto :=
  { email := "A@x.com"
    username := "newuser"
    firstName := "New"
    lastName := "User"
    password := "Password1!" }

def dtoRace : CreateUserDto :=
  { email := "a@x.com"
    username := "carol"
    firstName := "Carol"
    lastName := "Race"
    password := "Password1!" }

def hashW : String → String := fun p => "h:" ++ p

def userUpper : User :=
  { userA with
    id := "u3"
    email := "C@x.com"
    username := "Carol5" }

theorem conflict_on_collision_witness :
    ((createUser hashW [userA] [userA] "u9" 42 dtoColl).1 = [userA] ∧
     ∃ msg, (createUser hashW [userA] [userA] "u9" 42 dtoColl).2
        = .error (.conflict msg)) ∧
    (createUser hashW [] [userA] "u9" 42 dtoRace
      = ([userA], .error (.conflict "User with this email or username already exists"))) ∧
    ((updateUser [userA, inactiveUser] 42 "u2" { email := some "A@x.com" }).1
        = [userA, inactiveUser] ∧
     ∃ msg, (updateUser [userA, inactiveUser] 42 "u2" { email := some "A@x.com" }).2
        = .error (.conflict msg)) ∧
    updateUser [userA, userUpper] 42 "u1" { email := some "C@x.com" }
      = ([userA, userUpper],
         .error (.conflict "User with this email or username already exists")) :=
  ⟨(conflict_on_collision hashW [userA] [userA] "u9" 42 dtoColl).1
      (by decide) (by decide),
   (conflict_on_collision hashW [] [userA] "u9" 42 dtoRace).2.1
      (by decide) (by decide),
   (conflict_on_collision hashW [userA] [userA] "u9" 42 dtoColl).2.2.1
      [userA, inactiveUser] 42 "u2" { email := some "A@x.com" } inactiveUser
      (by decide) (by decide)
      (Or.inl ⟨"A@x.com", rfl, userA, by decide, by decide, by decide⟩),
   (conflict_on_collision hashW [userA] [userA] "u9" 42 dtoColl).2.2.2
      [userA, userUpper] 42 "u1" { email := some "C@x.com" } userA
      (by decide) (by decide) rfl⟩

def userWithValidToken : User :=
  { userA with
    passwordResetToken := some "tok123"
    passwordResetExpires := some 3600000 }

/-- Concrete run of the reset flow on a store whose single account holds
exactly the supplied token, unexpired: the call still throws the
invalid-or-expired error and leaves the store unchanged. -/
theorem resetPassword_failing_input_eval :
    resetPassword hashW [userWithValidToken] 0 "tok123" "NewPass1!"
      = ([userWithValidToken],
         .error (.badRequest "Invalid or expired reset token")) := rfl
